import Mathlib

/-!
Verification of the ExamAi backend grading engine (src/main.py).

The grading engine (`grade_submission`) and the submission-creation
endpoint (`create_submission`) are embedded shallowly:

* JSON scalar values carried in `answer` / `answer_key` fields are the
  inductive `Value` (Python `None`, `bool`, `int`, `str`).  Python's `==`
  on these values is `pyEq` (Python booleans are integers, so
  `True == 1`; there is no string/number coercion).  Python's `str()`
  coercion is `pyStr`.
* Python floats produced by the heuristics (0.0, 0.3, 0.5, 0.6, 1.0,
  `overlap/5.0`, percentage scores) are modelled as rationals; every
  value the engine manipulates is exactly representable, and Python's
  `round` (round-half-to-even, per the language reference) is
  `roundHalfEven` / `round2`.
* The document store is a `Store` record; `create_submission` threads it
  explicitly.
-/

/-- A JSON scalar value as carried in `answer` / `answer_key` fields. -/
inductive Value where
  | vnone : Value
  | vbool : Bool → Value
  | vint  : Int → Value
  | vstr  : String → Value
deriving DecidableEq, Repr

/-- Python `==` on `Value`s.  Python `bool` is a subtype of `int`, so
`True == 1` and `False == 0`; `None` equals only `None`; strings never
equal numbers. -/
def pyEq : Value → Value → Bool
  | .vnone, .vnone => true
  | .vbool a, .vbool b => a == b
  | .vbool a, .vint n => (if a then (1 : Int) else 0) == n
  | .vint n, .vbool a => n == (if a then (1 : Int) else 0)
  | .vint m, .vint n => m == n
  | .vstr s, .vstr t => s == t
  | _, _ => false

/-- Python `str()` coercion of a `Value`. -/
def pyStr : Value → String
  | .vnone => "None"
  | .vbool b => if b then ("True") else ("False")
  | .vint n => toString n
  | .vstr s => s

/-- Worker for `pySplit`: walk the characters, accumulating the current
word (reversed) and flushing it at each whitespace run. -/
def splitWordsAux : List Char → List Char → List String
  | [], acc => if acc.isEmpty then [] else [String.mk acc.reverse]
  | c :: cs, acc =>
    if c.isWhitespace then
      if acc.isEmpty then splitWordsAux cs []
      else String.mk acc.reverse :: splitWordsAux cs []
    else splitWordsAux cs (c :: acc)

/-- Python `str.split()` with no arguments: the maximal whitespace-free
runs of the string, in order (empty pieces discarded).  Whitespace is
modelled by `Char.isWhitespace` (space, tab, CR, LF). -/
def pySplit (s : String) : List String := splitWordsAux s.data []

/-- Python `str.lower()` (ASCII case folding). -/
def pyLower (s : String) : String := String.mk (s.data.map Char.toLower)

/-- The set of lowercase whitespace-separated words of a string
(`set(s.lower().split())` in the source). -/
def wordSet (s : String) : Finset String :=
  (pySplit (pyLower s)).toFinset

/-- Python `round(q)` for an exactly-representable value: nearest
integer, ties to the even neighbour. -/
def roundHalfEven (q : ℚ) : ℤ :=
  if q - (⌊q⌋ : ℚ) < 1/2 then ⌊q⌋
  else if 1/2 < q - (⌊q⌋ : ℚ) then ⌊q⌋ + 1
  else if 2 ∣ ⌊q⌋ then ⌊q⌋ else ⌊q⌋ + 1

/-- Python `round(q, 2)`: round to two decimal places, ties to even. -/
def round2 (q : ℚ) : ℚ :=
  (roundHalfEven (q * 100) : ℚ) / 100

/-- A question as stored inside an assessment document
(model `Question` in src/main.py).  `answer_key := .vnone` models a
missing or null key, matching `q.get("answer_key") is None`. -/
structure Question where
  prompt : String
  qtype : String
  answer_key : Value
  points : ℤ
deriving DecidableEq, Repr

/-- One submitted answer (model `SubmissionAnswer` in src/main.py). -/
structure SubmissionAnswer where
  question_index : ℤ
  answer : Value
deriving DecidableEq, Repr

/-- Model of `next((a for a in answers if a.get("question_index") == i), None)`:
the first submitted answer whose index equals `i`. -/
def matchAnswer (answers : List SubmissionAnswer) (i : ℕ) : Option SubmissionAnswer :=
  answers.find? (fun a => a.question_index == (i : ℤ))

/-- Number of distinct shared lowercase words between the prompt and the
string-coerced answer (`len(prompt_words & ans_words)`). -/
def overlapCount (prompt : String) (ans : Value) : ℕ :=
  (wordSet prompt ∩ wordSet (pyStr ans)).card

/-- The per-question branch of the grading loop in `grade_submission`
(src/main.py lines 232-257): given the question and the matched answer
(if any), return the correctness value and the rationale string. -/
def gradeOne (q : Question) (ua : Option SubmissionAnswer) : ℚ × String :=
  match ua with
  | none => (0.5, "Partial credit: baseline heuristic")
  | some ua =>
    if q.qtype = "multiple_choice" then
      if q.answer_key ≠ Value.vnone ∧ pyEq ua.answer q.answer_key = true then
        (1.0, "Correct option")
      else
        (0.0, "Incorrect option")
    else if q.qtype = "short_answer" then
      let overlap := overlapCount q.prompt ua.answer
      (min 1.0 ((overlap : ℚ) / 5.0), "Keyword overlap score: " ++ toString overlap)
    else if q.qtype = "essay" then
      let length := (pyStr ua.answer).length
      (if length > 200 then 1.0 else if length > 80 then 0.6 else 0.3,
       "Length heuristic: " ++ toString length ++ " chars")
    else
      (0.5, "Partial credit: baseline heuristic")

/-- Correctness assigned to question `q` at index `i`. -/
def correctnessFor (q : Question) (i : ℕ) (answers : List SubmissionAnswer) : ℚ :=
  (gradeOne q (matchAnswer answers i)).1

/-- Points earned for question `q` at index `i`:
`round(pts * correctness)`. -/
def earnedFor (q : Question) (i : ℕ) (answers : List SubmissionAnswer) : ℤ :=
  roundHalfEven ((q.points : ℚ) * correctnessFor q i answers)

/-- One per-question feedback record emitted by the grading loop. -/
structure FeedbackEntry where
  question_index : ℕ
  points : ℤ
  earned : ℤ
  correctness : ℚ
  rationale : String
deriving DecidableEq, Repr

/-- The feedback record appended for question `q` at index `i`. -/
def feedbackFor (i : ℕ) (q : Question) (answers : List SubmissionAnswer) : FeedbackEntry :=
  { question_index := i
    points := q.points
    earned := earnedFor q i answers
    correctness := round2 (correctnessFor q i answers)
    rationale := (gradeOne q (matchAnswer answers i)).2 }

/-- The aggregate result (model `GradeResult` in src/main.py). -/
structure GradeResult where
  graded : Bool
  total_points : ℤ
  score : ℚ
  feedback : List FeedbackEntry
deriving DecidableEq, Repr

/-- Sum of per-question earned points accumulated by the grading loop. -/
def earnedTotal (questions : List Question) (answers : List SubmissionAnswer) : ℤ :=
  (questions.enum.map (fun iq => earnedFor iq.2 iq.1 answers)).sum

/-- The grading engine `grade_submission` (src/main.py lines 225-276),
restricted to its pure core: store lookups and persistence are the
caller's concern. -/
def grade_submission (questions : List Question) (answers : List SubmissionAnswer) :
    GradeResult :=
  let total_points : ℤ := (questions.map (fun q => q.points)).sum
  let feedback := questions.enum.map (fun iq => feedbackFor iq.1 iq.2 answers)
  let earned := earnedTotal questions answers
  let score := if total_points > 0 then round2 ((earned : ℚ) / (total_points : ℚ) * 100.0)
               else 0.0
  { graded := true, total_points := total_points, score := score, feedback := feedback }

/-- An assessment document (model `Assessment` in src/main.py). -/
structure Assessment where
  title : String
  description : Option String
  source_type : Option String
  source_reference : Option String
  questions : List Question
deriving DecidableEq, Repr

/-- A submission-creation payload (model `SubmissionCreate`). -/
structure SubmissionCreate where
  assessment_id : String
  student_name : Option String
  answers : List SubmissionAnswer
deriving DecidableEq, Repr

/-- The document store: assessments and submissions keyed by id. -/
structure Store where
  assessments : List (String × Assessment)
  submissions : List (String × SubmissionCreate)
deriving DecidableEq, Repr

/-- The `POST /submissions` handler `create_submission`
(src/main.py lines 201-211): look up the referenced assessment; if it is
absent, fail with the 404 detail string and leave the store unchanged;
otherwise persist the submission under the fresh id `new_id`. -/
def create_submission (store : Store) (payload : SubmissionCreate) (new_id : String) :
    Except String String × Store :=
  match store.assessments.find? (fun p => p.1 = payload.assessment_id) with
  | none => (Except.error ("Assessment not found"), store)
  | some _ =>
      (Except.ok new_id,
       { store with submissions := store.submissions ++ [(new_id, payload)] })

/-! ### Helper lemmas -/

/-- Rounding a nonnegative value with `roundHalfEven` stays nonnegative. -/
theorem roundHalfEven_nonneg {q : ℚ} (h : 0 ≤ q) : 0 ≤ roundHalfEven q := by
  have hf : 0 ≤ ⌊q⌋ := Int.floor_nonneg.mpr h
  unfold roundHalfEven
  split
  · exact hf
  · split
    · omega
    · split
      · exact hf
      · omega

/-- Rounding with `roundHalfEven` never exceeds an integer upper bound of the input. -/
theorem roundHalfEven_le {q : ℚ} {n : ℤ} (h : q ≤ (n : ℚ)) : roundHalfEven q ≤ n := by
  have hf : ⌊q⌋ ≤ n := by
    calc ⌊q⌋ ≤ ⌊(n : ℚ)⌋ := Int.floor_le_floor h
    _ = n := Int.floor_intCast n
  unfold roundHalfEven
  split
  · exact hf
  · rename_i hr
    have hne : ⌊q⌋ ≠ n := by
      intro he
      apply hr
      have : q - (⌊q⌋ : ℚ) ≤ 0 := by
        rw [he]
        linarith
      linarith
    have hlt : ⌊q⌋ < n := lt_of_le_of_ne hf hne
    split
    · omega
    · split
      · omega
      · omega

/-- Rounding a nonnegative value with `round2` stays nonnegative. -/
theorem round2_nonneg {q : ℚ} (h : 0 ≤ q) : 0 ≤ round2 q := by
  unfold round2
  have : (0 : ℤ) ≤ roundHalfEven (q * 100) := roundHalfEven_nonneg (by linarith)
  have : (0 : ℚ) ≤ (roundHalfEven (q * 100) : ℚ) := by exact_mod_cast this
  linarith

/-- Rounding with `round2` never exceeds 100 on inputs bounded by 100. -/
theorem round2_le_100 {q : ℚ} (h : q ≤ 100) : round2 q ≤ 100 := by
  unfold round2
  have h1 : q * 100 ≤ ((10000 : ℤ) : ℚ) := by push_cast; linarith
  have h2 : roundHalfEven (q * 100) ≤ 10000 := roundHalfEven_le h1
  have h3 : (roundHalfEven (q * 100) : ℚ) ≤ 10000 := by exact_mod_cast h2
  linarith

/-- Python `==` is reflexive on `Value`s. -/
theorem pyEq_refl (v : Value) : pyEq v v = true := by
  cases v <;> simp [pyEq]

/-- Every correctness value produced by the per-question branch lies in
`[0, 1]`. -/
theorem correctnessFor_mem_unit (q : Question) (i : ℕ) (ans : List SubmissionAnswer) :
    0 ≤ correctnessFor q i ans ∧ correctnessFor q i ans ≤ 1 := by
  unfold correctnessFor gradeOne
  cases matchAnswer ans i with
  | none => norm_num
  | some ua =>
    simp only
    split
    · split <;> norm_num
    · split
      · have hnn : (0 : ℚ) ≤ (overlapCount q.prompt ua.answer : ℚ) / 5 := by positivity
        refine ⟨?_, ?_⟩ <;> norm_num [le_min_iff, min_le_iff, hnn]
      · split
        · split
          · norm_num
          · split <;> norm_num
        · norm_num

/-- With nonnegative points, the earned value for a question lies
between 0 and the question's point value. -/
theorem earnedFor_bounds (q : Question) (i : ℕ) (ans : List SubmissionAnswer)
    (hp : 0 ≤ q.points) : 0 ≤ earnedFor q i ans ∧ earnedFor q i ans ≤ q.points := by
  obtain ⟨h0, h1⟩ := correctnessFor_mem_unit q i ans
  have hpq : (0 : ℚ) ≤ (q.points : ℚ) := by exact_mod_cast hp
  unfold earnedFor
  constructor
  · exact roundHalfEven_nonneg (mul_nonneg hpq h0)
  · apply roundHalfEven_le
    have := mul_le_mul_of_nonneg_left h1 hpq
    simpa using this

/-- Indexing the emitted feedback list: entry `i` is the record built
for question `i`. -/
theorem grade_feedback_getElem? (qs : List Question) (ans : List SubmissionAnswer) (i : ℕ) :
    (grade_submission qs ans).feedback[i]? = qs[i]?.map (fun q => feedbackFor i q ans) := by
  show (qs.enum.map fun iq => feedbackFor iq.1 iq.2 ans)[i]? = _
  rw [List.getElem?_map, List.getElem?_enum]
  cases qs[i]? <;> simp

/-- The engine's earned total is the sum of the `earned` fields of the
emitted feedback records. -/
theorem earnedTotal_eq_feedback_sum (qs : List Question) (ans : List SubmissionAnswer) :
    earnedTotal qs ans = ((grade_submission qs ans).feedback.map (fun f => f.earned)).sum := by
  show _ = ((qs.enum.map fun iq => feedbackFor iq.1 iq.2 ans).map (fun f => f.earned)).sum
  rw [List.map_map]
  rfl

/-- Each component of a pair in `l.enum` is a member of `l`. -/
theorem snd_mem_of_mem_enum {α : Type} {l : List α} {p : ℕ × α} (h : p ∈ l.enum) :
    p.2 ∈ l := by
  have := List.mem_map_of_mem Prod.snd h
  rwa [List.enum_map_snd] at this

/-- With nonnegative points everywhere, the earned total is nonnegative. -/
theorem earnedTotal_nonneg (qs : List Question) (ans : List SubmissionAnswer)
    (hp : ∀ q ∈ qs, 0 ≤ q.points) : 0 ≤ earnedTotal qs ans := by
  unfold earnedTotal
  apply List.sum_nonneg
  intro x hx
  simp only [List.mem_map] at hx
  obtain ⟨iq, hiq, rfl⟩ := hx
  exact (earnedFor_bounds iq.2 iq.1 ans (hp iq.2 (snd_mem_of_mem_enum hiq))).1

/-- With nonnegative points everywhere, the earned total never exceeds
the total points. -/
theorem earnedTotal_le_total (qs : List Question) (ans : List SubmissionAnswer)
    (hp : ∀ q ∈ qs, 0 ≤ q.points) :
    earnedTotal qs ans ≤ (qs.map (fun q => q.points)).sum := by
  unfold earnedTotal
  calc (qs.enum.map (fun iq => earnedFor iq.2 iq.1 ans)).sum
      ≤ (qs.enum.map (fun iq => iq.2.points)).sum := by
        apply List.sum_le_sum
        intro iq hiq
        exact (earnedFor_bounds iq.2 iq.1 ans (hp iq.2 (snd_mem_of_mem_enum hiq))).2
    _ = ((qs.enum.map Prod.snd).map (fun q => q.points)).sum := by rw [List.map_map]; rfl
    _ = (qs.map (fun q => q.points)).sum := by rw [List.enum_map_snd]

/-! ### Claims -/

/-- C1 (counterexample): a `multiple_choice` question with an absent
`answer_key` and a matching submitted answer is assigned correctness
0.0 by the engine, not the pre-set default 0.5 the claim asserts: the
failed key-presence check falls into the `else` (incorrect-option)
branch. -/
theorem C1_counterexample :
    matchAnswer [⟨0, Value.vint 1⟩] 0 = some ⟨0, Value.vint 1⟩ ∧
    correctnessFor ⟨"Pick an option", "multiple_choice", Value.vnone, 2⟩ 0
      [⟨0, Value.vint 1⟩] = 0 ∧
    correctnessFor ⟨"Pick an option", "multiple_choice", Value.vnone, 2⟩ 0
      [⟨0, Value.vint 1⟩] ≠ 0.5 := by
  have h : matchAnswer [⟨0, Value.vint 1⟩] 0 = some ⟨0, Value.vint 1⟩ := by decide
  refine ⟨h, ?_, ?_⟩ <;> simp [correctnessFor, gradeOne, h] <;> norm_num

/-- C1 (amended): for every `multiple_choice` question whose
`answer_key` is absent, when a matching submitted answer exists, the
engine assigns correctness 0.0 (the key-presence check fails and the
incorrect-option branch runs). -/
theorem C1_amended_absent_key_zero (q : Question) (i : ℕ) (ans : List SubmissionAnswer)
    (ua : SubmissionAnswer) (ht : q.qtype = "multiple_choice")
    (hk : q.answer_key = Value.vnone) (hm : matchAnswer ans i = some ua) :
    correctnessFor q i ans = 0 := by
  simp [correctnessFor, gradeOne, hm, ht, hk]
  norm_num

/-- C1 (witness): the amended theorem applied at a concrete input. -/
theorem C1_witness :
    ("multiple_choice" : String) = "multiple_choice" ∧
    (Value.vnone : Value) = Value.vnone ∧
    matchAnswer [⟨0, Value.vstr ("B")⟩] 0 = some ⟨0, Value.vstr ("B")⟩ ∧
    correctnessFor ⟨"Pick", "multiple_choice", Value.vnone, 3⟩ 0 [⟨0, Value.vstr ("B")⟩] = 0 :=
  ⟨rfl, rfl, by decide,
   C1_amended_absent_key_zero ⟨"Pick", "multiple_choice", Value.vnone, 3⟩ 0
     [⟨0, Value.vstr ("B")⟩] ⟨0, Value.vstr ("B")⟩ rfl rfl (by decide)⟩

/-- C2: for a `multiple_choice` question with a present `answer_key`
and a matching submitted answer, correctness is 1.0 when the submitted
value equals the key and 0.0 for any other value, where equality is
Python `==` value equality (`pyEq`): no coercion between strings and
numbers exists, and an exactly equal value always scores 1.0. -/
theorem C2_mc_exact_match (q : Question) (i : ℕ) (ans : List SubmissionAnswer)
    (ua : SubmissionAnswer) (ht : q.qtype = "multiple_choice")
    (hk : q.answer_key ≠ Value.vnone) (hm : matchAnswer ans i = some ua) :
    (ua.answer = q.answer_key → correctnessFor q i ans = 1) ∧
    correctnessFor q i ans = (if pyEq ua.answer q.answer_key then 1 else 0) ∧
    (∀ s n, pyEq (Value.vstr s) (Value.vint n) = false) ∧
    (∀ s n, pyEq (Value.vint n) (Value.vstr s) = false) := by
  refine ⟨?_, ?_, fun s n => rfl, fun s n => rfl⟩
  · intro he
    simp [correctnessFor, gradeOne, hm, ht, hk, he, pyEq_refl]
    norm_num
  · by_cases hp : pyEq ua.answer q.answer_key = true
    · simp [correctnessFor, gradeOne, hm, ht, hk, hp]
      norm_num
    · simp [correctnessFor, gradeOne, hm, ht, hk, hp]
      norm_num

/-- C2 (witness): the theorem applied at a concrete input. -/
theorem C2_witness :
    (Value.vint 2 : Value) ≠ Value.vnone ∧
    matchAnswer [⟨0, Value.vint 2⟩] 0 = some ⟨0, Value.vint 2⟩ ∧
    correctnessFor ⟨"Q", "multiple_choice", Value.vint 2, 3⟩ 0 [⟨0, Value.vint 2⟩] = 1 :=
  ⟨by decide, by decide,
   (C2_mc_exact_match ⟨"Q", "multiple_choice", Value.vint 2, 3⟩ 0
     [⟨0, Value.vint 2⟩] ⟨0, Value.vint 2⟩ rfl (by decide) (by decide)).1 rfl⟩

/-- C3: for a `short_answer` question with a matching submitted answer,
correctness is `min 1 (k/5)` for `k` the number of distinct shared
lowercase words between prompt and answer text; the formula is
monotonically non-decreasing in `k` and capped at 1. -/
theorem C3_short_answer_overlap (q : Question) (i : ℕ) (ans : List SubmissionAnswer)
    (ua : SubmissionAnswer) (ht : q.qtype = "short_answer")
    (hm : matchAnswer ans i = some ua) :
    correctnessFor q i ans = min 1 ((overlapCount q.prompt ua.answer : ℚ) / 5) ∧
    (∀ k₁ k₂ : ℕ, k₁ ≤ k₂ → min 1 ((k₁ : ℚ) / 5) ≤ min 1 ((k₂ : ℚ) / 5)) ∧
    correctnessFor q i ans ≤ 1 := by
  refine ⟨?_, ?_, (correctnessFor_mem_unit q i ans).2⟩
  · simp [correctnessFor, gradeOne, hm, ht]
    norm_num
  · intro k₁ k₂ hk
    apply min_le_min le_rfl
    gcongr

/-- C3 (witness): the theorem applied at a concrete input with two
shared words. -/
theorem C3_witness :
    ("short_answer" : String) = "short_answer" ∧
    matchAnswer [⟨0, Value.vstr ("THE capital")⟩] 0 = some ⟨0, Value.vstr ("THE capital")⟩ ∧
    (correctnessFor ⟨"the capital of France", "short_answer", Value.vnone, 2⟩ 0
        [⟨0, Value.vstr ("THE capital")⟩] =
      min 1 ((overlapCount ("the capital of France") (Value.vstr ("THE capital")) : ℚ) / 5) ∧
    (∀ k₁ k₂ : ℕ, k₁ ≤ k₂ → min 1 ((k₁ : ℚ) / 5) ≤ min 1 ((k₂ : ℚ) / 5)) ∧
    correctnessFor ⟨"the capital of France", "short_answer", Value.vnone, 2⟩ 0
        [⟨0, Value.vstr ("THE capital")⟩] ≤ 1) :=
  ⟨rfl, by decide,
   C3_short_answer_overlap ⟨"the capital of France", "short_answer", Value.vnone, 2⟩ 0
     [⟨0, Value.vstr ("THE capital")⟩] ⟨0, Value.vstr ("THE capital")⟩ rfl (by decide)⟩

/-- C4: for an `essay` question with a matching submitted answer,
correctness is a step function of the character length of the
string-coerced answer: above 200 chars gives 1.0, 81 to 200 chars gives
0.6, and at most 80 chars gives 0.3. -/
theorem C4_essay_length_buckets (q : Question) (i : ℕ) (ans : List SubmissionAnswer)
    (ua : SubmissionAnswer) (ht : q.qtype = "essay")
    (hm : matchAnswer ans i = some ua) :
    (200 < (pyStr ua.answer).length → correctnessFor q i ans = 1) ∧
    (80 < (pyStr ua.answer).length → (pyStr ua.answer).length ≤ 200 →
      correctnessFor q i ans = 0.6) ∧
    ((pyStr ua.answer).length ≤ 80 → correctnessFor q i ans = 0.3) := by
  refine ⟨?_, ?_, ?_⟩
  · intro h1
    simp [correctnessFor, gradeOne, hm, ht, h1]
    norm_num
  · intro h1 h2
    simp [correctnessFor, gradeOne, hm, ht, h1, Nat.not_lt.mpr h2]
  · intro h1
    have h2 : ¬ 80 < (pyStr ua.answer).length := Nat.not_lt.mpr h1
    have h3 : ¬ 200 < (pyStr ua.answer).length := by omega
    simp [correctnessFor, gradeOne, hm, ht, h2, h3]

/-- C4 (witness): the theorem applied at a concrete 2-character
answer (length at most 80, so the 0.3 bucket). -/
theorem C4_witness :
    ("essay" : String) = "essay" ∧
    matchAnswer [⟨0, Value.vstr ("hi")⟩] 0 = some ⟨0, Value.vstr ("hi")⟩ ∧
    (pyStr (Value.vstr ("hi"))).length ≤ 80 ∧
    correctnessFor ⟨"Discuss.", "essay", Value.vnone, 10⟩ 0 [⟨0, Value.vstr ("hi")⟩] = 0.3 :=
  ⟨rfl, by decide, by decide,
   (C4_essay_length_buckets ⟨"Discuss.", "essay", Value.vnone, 10⟩ 0
     [⟨0, Value.vstr ("hi")⟩] ⟨0, Value.vstr ("hi")⟩ rfl (by decide)).2.2 (by decide)⟩

/-- C5: a question with no matching submitted answer (out-of-range
indices never match) keeps the default correctness 0.5, its feedback
record reports correctness 0.5 and earned `round(points * 0.5)`, and
the earned total is the sum of the per-question earned values. -/
theorem C5_unmatched_default (qs : List Question) (ans : List SubmissionAnswer)
    (i : ℕ) (q : Question) (hq : qs[i]? = some q)
    (hnone : ∀ a ∈ ans, a.question_index ≠ (i : ℤ)) :
    correctnessFor q i ans = 0.5 ∧
    (grade_submission qs ans).feedback[i]? = some (feedbackFor i q ans) ∧
    (feedbackFor i q ans).earned = roundHalfEven ((q.points : ℚ) * 0.5) ∧
    (feedbackFor i q ans).correctness = 0.5 ∧
    earnedTotal qs ans = ((grade_submission qs ans).feedback.map (fun f => f.earned)).sum := by
  have hm : matchAnswer ans i = none := by
    unfold matchAnswer
    rw [List.find?_eq_none]
    intro a ha
    simp [hnone a ha]
  have hc : correctnessFor q i ans = 0.5 := by
    simp [correctnessFor, gradeOne, hm]
  refine ⟨hc, ?_, ?_, ?_, earnedTotal_eq_feedback_sum qs ans⟩
  · rw [grade_feedback_getElem?, hq]
    rfl
  · show earnedFor q i ans = _
    unfold earnedFor
    rw [hc]
  · show round2 (correctnessFor q i ans) = 0.5
    rw [hc]
    norm_num [round2, roundHalfEven]

/-- C5 (witness): question index 2 of a three-question assessment has
no matching answer (the submission holds indices 0 and the out-of-range
5), so its correctness defaults to 0.5 and it earns `round(4*0.5)=2`. -/
theorem C5_witness :
    ([(⟨"A", "multiple_choice", Value.vint 0, 3⟩ : Question),
      ⟨"B", "short_answer", Value.vnone, 2⟩,
      ⟨"C", "essay", Value.vnone, 4⟩][2]? =
        some (⟨"C", "essay", Value.vnone, 4⟩ : Question)) ∧
    (∀ a ∈ [(⟨0, Value.vint 0⟩ : SubmissionAnswer), ⟨5, Value.vstr ("x")⟩],
      a.question_index ≠ (2 : ℤ)) ∧
    (correctnessFor ⟨"C", "essay", Value.vnone, 4⟩ 2
        [⟨0, Value.vint 0⟩, ⟨5, Value.vstr ("x")⟩] = 0.5 ∧
      (grade_submission
          [⟨"A", "multiple_choice", Value.vint 0, 3⟩,
           ⟨"B", "short_answer", Value.vnone, 2⟩,
           ⟨"C", "essay", Value.vnone, 4⟩]
          [⟨0, Value.vint 0⟩, ⟨5, Value.vstr ("x")⟩]).feedback[2]? =
        some (feedbackFor 2 ⟨"C", "essay", Value.vnone, 4⟩
          [⟨0, Value.vint 0⟩, ⟨5, Value.vstr ("x")⟩]) ∧
      (feedbackFor 2 ⟨"C", "essay", Value.vnone, 4⟩
          [⟨0, Value.vint 0⟩, ⟨5, Value.vstr ("x")⟩]).earned =
        roundHalfEven (((4 : ℤ) : ℚ) * 0.5) ∧
      (feedbackFor 2 ⟨"C", "essay", Value.vnone, 4⟩
          [⟨0, Value.vint 0⟩, ⟨5, Value.vstr ("x")⟩]).correctness = 0.5 ∧
      earnedTotal
          [⟨"A", "multiple_choice", Value.vint 0, 3⟩,
           ⟨"B", "short_answer", Value.vnone, 2⟩,
           ⟨"C", "essay", Value.vnone, 4⟩]
          [⟨0, Value.vint 0⟩, ⟨5, Value.vstr ("x")⟩] =
        (((grade_submission
            [⟨"A", "multiple_choice", Value.vint 0, 3⟩,
             ⟨"B", "short_answer", Value.vnone, 2⟩,
             ⟨"C", "essay", Value.vnone, 4⟩]
            [⟨0, Value.vint 0⟩, ⟨5, Value.vstr ("x")⟩]).feedback.map
          (fun f => f.earned)).sum)) :=
  ⟨by decide, by decide,
   C5_unmatched_default
     [⟨"A", "multiple_choice", Value.vint 0, 3⟩,
      ⟨"B", "short_answer", Value.vnone, 2⟩,
      ⟨"C", "essay", Value.vnone, 4⟩]
     [⟨0, Value.vint 0⟩, ⟨5, Value.vstr ("x")⟩] 2 ⟨"C", "essay", Value.vnone, 4⟩
     (by decide) (by decide)⟩

/-- C6: `total_points` is the sum of all question points, independent
of the submitted answers, and the score is
`round(earned / total_points * 100, 2)` when `total_points > 0` and
0.0 otherwise. -/
theorem C6_totals_and_score (qs : List Question) (a₁ a₂ : List SubmissionAnswer) :
    (grade_submission qs a₁).total_points = (qs.map (fun q => q.points)).sum ∧
    (grade_submission qs a₁).total_points = (grade_submission qs a₂).total_points ∧
    (grade_submission qs a₁).score =
      (if 0 < (qs.map (fun q => q.points)).sum
       then round2 ((earnedTotal qs a₁ : ℚ) / (((qs.map (fun q => q.points)).sum : ℤ) : ℚ) * 100)
       else 0) := by
  refine ⟨rfl, rfl, ?_⟩
  show (if (qs.map (fun q => q.points)).sum > 0
        then round2 ((earnedTotal qs a₁ : ℚ) / (((qs.map (fun q => q.points)).sum : ℤ) : ℚ) * 100.0)
        else 0.0) = _
  split <;> norm_num

/-- C7: the concrete two-question scenario: a multiple-choice question
(key 1, 3 points) answered with 1 and an essay question (10 points)
answered with a 50-character string grade to earned 3 and 3,
correctness 1.0 and 0.3, total 13, score 46.15. -/
theorem C7_scenario :
    grade_submission
      [⟨"Which option best matches the definition?", "multiple_choice", Value.vint 1, 3⟩,
       ⟨"Write a short essay explaining the implications.", "essay", Value.vnone, 10⟩]
      [⟨0, Value.vint 1⟩,
       ⟨1, Value.vstr ("aaaaaaaaaaaaaaaaaaaaaaaaaaaaaaaaaaaaaaaaaaaaaaaaaa")⟩] =
    { graded := true
      total_points := 13
      score := 46.15
      feedback :=
        [⟨0, 3, 3, 1.0, "Correct option"⟩,
         ⟨1, 10, 3, 0.3, "Length heuristic: 50 chars"⟩] } := by
  have h1 : matchAnswer
      [⟨0, Value.vint 1⟩,
       ⟨1, Value.vstr ("aaaaaaaaaaaaaaaaaaaaaaaaaaaaaaaaaaaaaaaaaaaaaaaaaa")⟩] 0 =
      some ⟨0, Value.vint 1⟩ := by decide
  have h2 : matchAnswer
      [⟨0, Value.vint 1⟩,
       ⟨1, Value.vstr ("aaaaaaaaaaaaaaaaaaaaaaaaaaaaaaaaaaaaaaaaaaaaaaaaaa")⟩] 1 =
      some ⟨1, Value.vstr ("aaaaaaaaaaaaaaaaaaaaaaaaaaaaaaaaaaaaaaaaaaaaaaaaaa")⟩ := by decide
  have h3 : ("aaaaaaaaaaaaaaaaaaaaaaaaaaaaaaaaaaaaaaaaaaaaaaaaaa" : String).length = 50 := by
    decide
  have h4 : pyEq (Value.vint 1) (Value.vint 1) = true := by decide
  have h5 : toString (50 : ℕ) = "50" := by decide
  simp [grade_submission, earnedTotal, feedbackFor, earnedFor, correctnessFor, gradeOne,
        h1, h2, h3, h4, h5, List.enum, pyStr]
  norm_num [roundHalfEven, round2]

/-- C8: a submission-creation request whose `assessment_id` matches no
stored assessment fails with the NotFound detail naming the assessment,
and the store is unchanged (no record persisted). -/
theorem C8_missing_assessment (store : Store) (payload : SubmissionCreate)
    (new_id : String)
    (h : ∀ p ∈ store.assessments, p.1 ≠ payload.assessment_id) :
    (create_submission store payload new_id).1 = Except.error ("Assessment not found") ∧
    (create_submission store payload new_id).2 = store := by
  have hf : store.assessments.find? (fun p => p.1 = payload.assessment_id) = none := by
    rw [List.find?_eq_none]
    intro p hp
    simp [h p hp]
  unfold create_submission
  rw [hf]
  exact ⟨rfl, rfl⟩

/-- C8 (witness): the theorem applied to an empty store. -/
theorem C8_witness :
    (∀ p ∈ (Store.mk [] []).assessments, p.1 ≠ "missing-id") ∧
    (create_submission (Store.mk [] []) ⟨"missing-id", none, []⟩ "s1").1 =
      Except.error ("Assessment not found") ∧
    (create_submission (Store.mk [] []) ⟨"missing-id", none, []⟩ "s1").2 =
      Store.mk [] [] :=
  ⟨by decide, C8_missing_assessment (Store.mk [] []) ⟨"missing-id", none, []⟩ "s1" (by decide)⟩

/-- C9: per-question earned points are `round(points * correctness)`
with Python's round-half-to-even: an unanswered 1-point question
(correctness 0.5) earns `round(0.5) = 0`, while an unanswered 5-point
question earns `round(2.5) = 2`, pinning half-to-even over half-up. -/
theorem C9_round_half_to_even :
    (∀ q i a, earnedFor q i a = roundHalfEven ((q.points : ℚ) * correctnessFor q i a)) ∧
    correctnessFor ⟨"p", "short_answer", Value.vnone, 1⟩ 0 [] = 0.5 ∧
    earnedFor ⟨"p", "short_answer", Value.vnone, 1⟩ 0 [] = 0 ∧
    correctnessFor ⟨"p", "short_answer", Value.vnone, 5⟩ 0 [] = 0.5 ∧
    earnedFor ⟨"p", "short_answer", Value.vnone, 5⟩ 0 [] = 2 := by
  refine ⟨fun q i a => rfl, ?_, ?_, ?_, ?_⟩ <;>
    norm_num [earnedFor, correctnessFor, gradeOne, matchAnswer, roundHalfEven]

/-- C10: with nonnegative integer points, every correctness value lies
in [0, 1], every earned value lies between 0 and the question's points,
and the aggregate score lies in [0, 100] whenever `total_points > 0`. -/
theorem C10_invariants (qs : List Question) (ans : List SubmissionAnswer)
    (hp : ∀ q ∈ qs, 0 ≤ q.points) :
    (∀ q i, 0 ≤ correctnessFor q i ans ∧ correctnessFor q i ans ≤ 1) ∧
    (∀ q ∈ qs, ∀ i, 0 ≤ earnedFor q i ans ∧ earnedFor q i ans ≤ q.points) ∧
    (0 < (grade_submission qs ans).total_points →
      0 ≤ (grade_submission qs ans).score ∧ (grade_submission qs ans).score ≤ 100) := by
  refine ⟨fun q i => correctnessFor_mem_unit q i ans,
          fun q hq i => earnedFor_bounds q i ans (hp q hq), ?_⟩
  intro htot
  have htot' : 0 < (qs.map (fun q => q.points)).sum := htot
  have he0 : 0 ≤ earnedTotal qs ans := earnedTotal_nonneg qs ans hp
  have he1 : earnedTotal qs ans ≤ (qs.map (fun q => q.points)).sum :=
    earnedTotal_le_total qs ans hp
  have hscore : (grade_submission qs ans).score =
      round2 ((earnedTotal qs ans : ℚ) /
        (((qs.map (fun q => q.points)).sum : ℤ) : ℚ) * 100.0) := by
    show (if (qs.map (fun q => q.points)).sum > 0 then _ else _) = _
    rw [if_pos htot']
  have hTq : (0 : ℚ) < (((qs.map (fun q => q.points)).sum : ℤ) : ℚ) := by
    exact_mod_cast htot'
  have he0q : (0 : ℚ) ≤ (earnedTotal qs ans : ℚ) := by exact_mod_cast he0
  have he1q : (earnedTotal qs ans : ℚ) ≤ (((qs.map (fun q => q.points)).sum : ℤ) : ℚ) := by
    exact_mod_cast he1
  have hdiv1 : (earnedTotal qs ans : ℚ) /
      (((qs.map (fun q => q.points)).sum : ℤ) : ℚ) ≤ 1 :=
    (div_le_one hTq).mpr he1q
  have hdiv0 : (0 : ℚ) ≤ (earnedTotal qs ans : ℚ) /
      (((qs.map (fun q => q.points)).sum : ℤ) : ℚ) :=
    div_nonneg he0q (le_of_lt hTq)
  rw [hscore]
  constructor
  · apply round2_nonneg
    have : (100.0 : ℚ) = 100 := by norm_num
    rw [this]
    positivity
  · apply round2_le_100
    have : (100.0 : ℚ) = 100 := by norm_num
    rw [this]
    nlinarith

/-- C10 (witness): the theorem applied to a one-question assessment
with an empty submission. -/
theorem C10_witness :
    (∀ q ∈ [(⟨"p", "essay", Value.vnone, 10⟩ : Question)], 0 ≤ q.points) ∧
    ((∀ q i, 0 ≤ correctnessFor q i [] ∧ correctnessFor q i [] ≤ 1) ∧
     (∀ q ∈ [(⟨"p", "essay", Value.vnone, 10⟩ : Question)], ∀ i,
        0 ≤ earnedFor q i [] ∧ earnedFor q i [] ≤ q.points) ∧
     (0 < (grade_submission [(⟨"p", "essay", Value.vnone, 10⟩ : Question)] []).total_points →
        0 ≤ (grade_submission [(⟨"p", "essay", Value.vnone, 10⟩ : Question)] []).score ∧
        (grade_submission [(⟨"p", "essay", Value.vnone, 10⟩ : Question)] []).score ≤ 100)) :=
  ⟨by decide, C10_invariants [⟨"p", "essay", Value.vnone, 10⟩] [] (by decide)⟩
